import Mathlib

/-!
Verification of the aggregation core of the mobility-dashboard backend:
the two-tier fallback cache (backend/fallback/cache.py) and the snapshot
aggregator (backend/services/snapshot_service.py) together with the two
analytics hooks it invokes (backend/analytics/traffic_analytics.py and
backend/analytics/airquality_analytics.py).

The Python code is shallowly embedded: dictionaries become finite maps
(String → Option _), datetimes become Nat instants, exceptions become
Except, and the external Firestore client is modelled as a key-value
document map plus flags saying whether each of its operations raises
(the code wraps every Firestore call in a try/except).  Pickle/base64
serialization is a round-trip-safe encoding, so durable documents are
modelled by their decoded payloads.
-/

/-- Per-source outcome recorded by both the cache and the aggregator:
"live", "cached" or "failed". -/
inductive Status where
  | live
  | cached
  | failed
deriving DecidableEq, Repr

/-- A Python dict String → γ as an association list with unique keys
(lookup as `d.get(k)`). -/
def pyDictGet {γ : Type} : List (String × γ) → String → Option γ
  | [], _ => none
  | (k, v) :: rest, key => if k = key then some v else pyDictGet rest key

/-- Python dict assignment `d[k] = v`: update in place if the key exists,
else append (insertion order preserved, as in CPython). -/
def pyDictSet {γ : Type} (d : List (String × γ)) (key : String) (v : γ) :
    List (String × γ) :=
  if (pyDictGet d key).isSome then
    d.map (fun kv => if kv.1 = key then (key, v) else kv)
  else d ++ [(key, v)]

/-- Functional update of a map `String → Option γ` at one key
(Python `m[key] = v`). -/
def mupdate {γ : Type} (m : String → Option γ) (key : String) (v : γ) :
    String → Option γ :=
  fun k => if k = key then some v else m k

/-- Functional removal at one key (Python `m.pop(key, None)` /
document delete). -/
def mremove {γ : Type} (m : String → Option γ) (key : String) :
    String → Option γ :=
  fun k => if k = key then none else m k

/-- Truthiness of an `Optional[str]` in Python: `None` and `""` are falsy,
every other string is truthy (the guard `if adapter_name:` in
`AdapterCache.clear`). -/
def pyTruthy : Option String → Bool
  | none => false
  | some s => s ≠ ""

/-- backend/models/traffic_models.py, class TrafficIncident.  Attribute
values are optional because the constructor accepts anything, and the
analytics guards `category`/`severity` against None and defaults
`delay_minutes or 0`. -/
structure TrafficIncident where
  category : Option String
  severity : Option String
  description : Option String
  from_location : Option String
  to_location : Option String
  road : Option String
  length_meters : Option Rat
  delay_seconds : Option Rat
  delay_minutes : Option Rat
deriving DecidableEq, Repr

/-- One element of the raw incidents list held in the `traffic` slot.
The list is duck-typed in Python: an element is either a real
TrafficIncident or some other object (dict, None, ...) on which the
attribute accesses `inc.category` / `inc.severity` / `inc.delay_minutes`
raise AttributeError. -/
inductive TrafficItem where
  | incident : TrafficIncident → TrafficItem
  | nonIncident : TrafficItem
deriving DecidableEq, Repr

/-- Attribute access `inc.category`; raises on a non-incident element. -/
def TrafficItem.category : TrafficItem → Except Unit (Option String)
  | .incident i => Except.ok i.category
  | .nonIncident => Except.error ()

/-- Attribute access `inc.severity`; raises on a non-incident element. -/
def TrafficItem.severity : TrafficItem → Except Unit (Option String)
  | .incident i => Except.ok i.severity
  | .nonIncident => Except.error ()

/-- Attribute access `inc.delay_minutes`; raises on a non-incident
element. -/
def TrafficItem.delay_minutes : TrafficItem → Except Unit (Option Rat)
  | .incident i => Except.ok i.delay_minutes
  | .nonIncident => Except.error ()

/-- backend/models/traffic_models.py, class TrafficMetrics. -/
structure TrafficMetrics where
  congestion_level : String
  average_speed : Nat
  total_incidents : Nat
  incidents_by_category : List (String × Nat)
  incidents_by_severity : List (String × Nat)
  total_delay_minutes : Rat
  average_delay_minutes : Rat
  incidents : List TrafficItem
deriving DecidableEq, Repr

/-- backend/analytics/traffic_analytics.py, `build_traffic_metrics`.
Numbers are embedded as Rat.  The two passes over `incidents` perform
attribute accesses that raise on malformed elements, hence the Except
result. -/
def build_traffic_metrics (incidents : List TrafficItem) (radius_km : Rat) :
    Except Unit TrafficMetrics := do
  let total := incidents.length
  let mut by_category : List (String × Nat) := []
  let mut by_severity : List (String × Nat) := []
  for inc in incidents do
    match ← inc.category with
    | some cat =>
        by_category := pyDictSet by_category cat ((pyDictGet by_category cat).getD 0 + 1)
    | none => pure ()
    match ← inc.severity with
    | some sev =>
        by_severity := pyDictSet by_severity sev ((pyDictGet by_severity sev).getD 0 + 1)
    | none => pure ()
  let mut total_delay : Rat := 0
  for inc in incidents do
    total_delay := total_delay + ((← inc.delay_minutes).getD 0)
  let avg_delay : Rat := if total ≠ 0 then total_delay / (total : Rat) else 0
  let incidents_per_km : Rat :=
    if radius_km ≠ 0 ∧ radius_km > 0 then (total : Rat) / radius_km else 0
  let congestion : String :=
    if incidents_per_km > 5 then "high"
    else if incidents_per_km > 2 then "medium"
    else "low"
  let avg_speed : Nat :=
    if congestion = "high" then 15 else if congestion = "medium" then 30 else 50
  pure
    { congestion_level := congestion
      average_speed := avg_speed
      total_incidents := total
      incidents_by_category := by_category
      incidents_by_severity := by_severity
      total_delay_minutes := total_delay
      average_delay_minutes := avg_delay
      incidents := incidents }

/-- backend/models/airquality_models.py, class PollutantLevels. -/
structure PollutantLevels where
  pm2_5 : Rat
  pm10 : Rat
  nitrogen_dioxide : Rat
  carbon_monoxide : Rat
  ozone : Rat
  sulphur_dioxide : Rat
  units : List (String × String)
deriving DecidableEq, Repr

/-- `getattr(pollutants, pollutant, 0.0)` for the six limit keys. -/
def PollutantLevels.attr (p : PollutantLevels) (name : String) : Rat :=
  if name = "pm2_5" then p.pm2_5
  else if name = "pm10" then p.pm10
  else if name = "nitrogen_dioxide" then p.nitrogen_dioxide
  else if name = "carbon_monoxide" then p.carbon_monoxide
  else if name = "ozone" then p.ozone
  else if name = "sulphur_dioxide" then p.sulphur_dioxide
  else 0

/-- backend/models/airquality_models.py, class AirQualityMetrics.
`pollutants` is optional because the constructor accepts None, and
`check_pollutant_safety` asserts it is a PollutantLevels.  The runtime
object may additionally carry a dynamic `status` attribute (the models
file does not declare one, but the slot is duck-typed and
`_apply_analytics` probes it with hasattr): `has_status` records whether
the attribute exists and `status` its current value. -/
structure AirQualityMetrics where
  aqi_value : Rat
  pollutants : Option PollutantLevels
  has_status : Bool
  status : Option String
deriving DecidableEq, Repr

/-- backend/analytics/airquality_analytics.py, POLLUTANT_LIMITS. -/
def POLLUTANT_LIMITS : List (String × Rat) :=
  [("pm2_5", 25), ("pm10", 50), ("nitrogen_dioxide", 40),
   ("carbon_monoxide", 10), ("ozone", 100), ("sulphur_dioxide", 20)]

/-- backend/analytics/airquality_analytics.py, `categorise_aqi`. -/
def categorise_aqi (metrics : AirQualityMetrics) : String :=
  if metrics.aqi_value ≤ 50 then "low"
  else if metrics.aqi_value ≤ 100 then "medium"
  else "high"

/-- backend/analytics/airquality_analytics.py, `check_pollutant_safety`.
The `assert isinstance(pollutants, PollutantLevels)` raises
AssertionError when `pollutants` is None (None is not a
PollutantLevels), so the dead `if pollutants is None` branch below it is
unreachable. -/
def check_pollutant_safety (metrics : AirQualityMetrics) :
    Except Unit (List (String × String)) :=
  match metrics.pollutants with
  | none => Except.error ()
  | some pollutants => do
      let mut result : List (String × String) := []
      for entry in POLLUTANT_LIMITS do
        result := pyDictSet result entry.1
          (if pollutants.attr entry.1 > entry.2 then "unsafe" else "safe")
      pure result

/-- backend/analytics/airquality_analytics.py, `count_unsafe_pollutants`
(counts the entries marked "unsafe"). -/
def count_exceeding_pollutants (metrics : AirQualityMetrics) :
    Except Unit Nat := do
  let safety_dict ← check_pollutant_safety metrics
  pure (safety_dict.filter (fun kv => kv.2 == "unsafe")).length

/-- backend/analytics/airquality_analytics.py,
`overall_air_quality_level`. -/
def overall_air_quality_level (metrics : AirQualityMetrics) :
    Except Unit String := do
  let aqi_cat := categorise_aqi metrics
  let exceeding ← count_exceeding_pollutants metrics
  if aqi_cat = "low" ∧ exceeding = 0 then pure "low"
  else if aqi_cat = "high" ∨ exceeding ≥ 3 then pure "high"
  else pure "medium"

/-- Value held in the `traffic` slot of a snapshot.  The slot is
duck-typed in Python: adapters put a raw incidents list there,
`_apply_analytics` replaces it by a TrafficMetrics, and in principle any
other object (β) can sit there, in which case the
`isinstance(snapshot.traffic, list)` test is simply false. -/
inductive TrafficVal (β : Type) where
  | pylist : List TrafficItem → TrafficVal β
  | metrics : TrafficMetrics → TrafficVal β
  | other : β → TrafficVal β
deriving DecidableEq, Repr

/-- Value held in the `airquality` slot: an AirQualityMetrics-shaped
object, or any other object (β) on which `overall_air_quality_level`
raises AttributeError when it reads `aqi_value`/`pollutants`. -/
inductive AirSlotVal (β : Type) where
  | metrics : AirQualityMetrics → AirSlotVal β
  | other : β → AirSlotVal β
deriving DecidableEq, Repr

/-- backend/models/mobility_snapshot.py, class MobilitySnapshot.
β is the type of the opaque domain payloads the aggregation core never
inspects.  `tours` is not declared by the model class but `_merge`
reads and writes it as a dynamic attribute (getattr default None), so it
is one more optional slot here.  The timestamp is a Nat instant. -/
structure MobilitySnapshot (β : Type) where
  timestamp : Nat
  location : String
  bikes : Option β
  buses : Option β
  traffic : Option (TrafficVal β)
  airquality : Option (AirSlotVal β)
  population : Option β
  tours : Option β
  alerts : Option β
  recommendations : Option β
  source_status : List (String × Status)
deriving DecidableEq, Repr

/-- An adapter object as the aggregation core sees it: `source_name()`
(which may itself raise), the `__class__.__name__` fallback used by
`_safe_source_name`, and `fetch` over an opaque argument bag κ, which
may raise (Except.error) to signal failure. -/
structure Adapter (α κ : Type) where
  source_name : Except Unit String
  class_name : String
  fetch : κ → Except Unit α

/-- backend/services/snapshot_service.py, `SnapshotService._merge`.
Non-None fields of the partial overwrite the target; None fields leave
the target untouched; `source_status`, `location` and `timestamp` are
never touched (the service owns them).  A partial of None is a no-op. -/
def SnapshotService.merge {β : Type} (target : MobilitySnapshot β)
    (mpart : Option (MobilitySnapshot β)) : MobilitySnapshot β :=
  match mpart with
  | none => target
  | some p =>
      { target with
        bikes := if p.bikes.isSome then p.bikes else target.bikes
        buses := if p.buses.isSome then p.buses else target.buses
        traffic := if p.traffic.isSome then p.traffic else target.traffic
        airquality := if p.airquality.isSome then p.airquality else target.airquality
        population := if p.population.isSome then p.population else target.population
        tours := if p.tours.isSome then p.tours else target.tours
        alerts := if p.alerts.isSome then p.alerts else target.alerts
        recommendations :=
          if p.recommendations.isSome then p.recommendations else target.recommendations }

/-- backend/services/snapshot_service.py, `SnapshotService._apply_analytics`.
The traffic hook is NOT wrapped in try/except: an error raised by
`build_traffic_metrics` propagates (hence the Except result).  The
air-quality hook IS wrapped: any error there is swallowed and the
snapshot is left as it was. -/
def SnapshotService.apply_analytics {β : Type} (snapshot : MobilitySnapshot β) :
    Except Unit (MobilitySnapshot β) := do
  let snapshot1 ←
    match snapshot.traffic with
    | some (TrafficVal.pylist incidents) => do
        let m ← build_traffic_metrics incidents 1
        pure { snapshot with traffic := some (TrafficVal.metrics m) }
    | _ => pure snapshot
  match snapshot1.airquality with
  | some (AirSlotVal.metrics aq) =>
      match overall_air_quality_level aq with
      | Except.ok status =>
          if aq.has_status then
            pure { snapshot1 with
                   airquality := some (AirSlotVal.metrics { aq with status := some status }) }
          else pure snapshot1
      | Except.error _ => pure snapshot1
  | some (AirSlotVal.other _) => pure snapshot1
  | none => pure snapshot1

/-- The adapter shape used by SnapshotService: fetch receives
`location` plus the registration's keyword bag (values of type ν). -/
abbrev SvcAdapter (β ν : Type) :=
  Adapter (Option (MobilitySnapshot β)) (String × List (String × ν))

/-- backend/services/snapshot_service.py, dataclass AdapterCallSpec. -/
structure AdapterCallSpec (β ν : Type) where
  adapter : SvcAdapter β ν
  kwargs : List (String × ν)

/-- A constructed SnapshotService: the two registration lists, fixed for
the instance's lifetime. -/
structure SnapshotService (β ν : Type) where
  adapters : List (SvcAdapter β ν)
  adapter_specs : List (AdapterCallSpec β ν)

/-- backend/services/snapshot_service.py, `SnapshotService.__init__`.
`None` and an empty iterable are both falsy, so both normalise to the
empty list.  Raising gives `Except.error` with the code's message; no
partially constructed instance exists in that case. -/
def SnapshotService.init {β ν : Type} (adapters : Option (List (SvcAdapter β ν)))
    (adapter_specs : Option (List (AdapterCallSpec β ν))) :
    Except String (SnapshotService β ν) :=
  let adaptersL := adapters.getD []
  let specsL := adapter_specs.getD []
  if !adaptersL.isEmpty && !specsL.isEmpty then
    Except.error "Provide either adapters OR adapter_specs, not both."
  else if adaptersL.isEmpty && specsL.isEmpty then
    Except.error "SnapshotService requires at least one adapter."
  else Except.ok { adapters := adaptersL, adapter_specs := specsL }

/-- backend/services/snapshot_service.py,
`SnapshotService._iter_adapters_with_kwargs`. -/
def SnapshotService.iter_adapters_with_kwargs {β ν : Type}
    (svc : SnapshotService β ν) : List (SvcAdapter β ν × List (String × ν)) :=
  if !svc.adapter_specs.isEmpty then
    svc.adapter_specs.map (fun spec => (spec.adapter, spec.kwargs))
  else
    svc.adapters.map (fun a => (a, []))

/-- backend/services/snapshot_service.py, `SnapshotService._safe_source_name`:
the name from `source_name()`, or the class name if that call raises. -/
def SnapshotService.safe_source_name {α κ : Type} (adapter : Adapter α κ) : String :=
  match adapter.source_name with
  | Except.ok n => n
  | Except.error _ => adapter.class_name

/-- backend/services/snapshot_service.py, `SnapshotService.build_snapshot`.
Per registration: resolve name, fetch (any error giving status "failed"
for that source only), merge, status "live" on success; afterwards run
`_apply_analytics` (whose traffic part can raise). -/
def SnapshotService.build_snapshot {β ν : Type} (svc : SnapshotService β ν)
    (location : String) (now : Nat) : Except Unit (MobilitySnapshot β) := do
  let mut snapshot : MobilitySnapshot β :=
    { timestamp := now, location := location, bikes := none, buses := none,
      traffic := none, airquality := none, population := none, tours := none,
      alerts := none, recommendations := none, source_status := [] }
  for entry in svc.iter_adapters_with_kwargs do
    let adapter := entry.1
    let kwargs := entry.2
    let name := SnapshotService.safe_source_name adapter
    match adapter.fetch (location, kwargs) with
    | Except.ok presult =>
        snapshot := SnapshotService.merge snapshot presult
        snapshot := { snapshot with
                      source_status := pyDictSet snapshot.source_status name Status.live }
    | Except.error _ =>
        snapshot := { snapshot with
                      source_status := pyDictSet snapshot.source_status name Status.failed }
  SnapshotService.apply_analytics snapshot

/-- The external Firestore client at the boundary the cache uses:
one collection whose documents are keyed by source name.  Since the
pickle/base64 blob round-trips, a document is modelled by its decoded
payload and the stored timestamp.  The `fail*` flags say whether the
corresponding client operation raises (every Firestore call in the code
sits in a try/except, so this captures arbitrary client errors,
serialization errors included). -/
structure Firestore (α : Type) where
  docs : String → Option (α × Nat)
  failSet : Bool
  failGet : Bool
  failDelete : Bool

/-- backend/fallback/cache.py, class AdapterCache: in-memory payloads,
in-memory timestamps, and the optional Firestore client. -/
structure AdapterCache (α : Type) where
  cache : String → Option α
  timestamps : String → Option Nat
  db : Option (Firestore α)

/-- backend/fallback/cache.py, `AdapterCache.__init__`: empty memory
layer, injected (possibly absent) Firestore client. -/
def AdapterCache.init {α : Type} (db : Option (Firestore α)) : AdapterCache α :=
  { cache := fun _ => none, timestamps := fun _ => none, db := db }

/-- backend/fallback/cache.py, `AdapterCache._store`: always update both
memory dicts; then, if a Firestore client is present, attempt the
durable write, swallowing any error it raises (`failSet`). -/
def AdapterCache.store {α : Type} (c : AdapterCache α) (name : String)
    (snapshot : α) (now : Nat) : AdapterCache α :=
  { cache := mupdate c.cache name snapshot
    timestamps := mupdate c.timestamps name now
    db :=
      match c.db with
      | none => none
      | some fs =>
          if fs.failSet then some fs
          else some { fs with docs := mupdate fs.docs name (snapshot, now) } }

/-- backend/fallback/cache.py, `AdapterCache._load_from_firestore`:
on a durable hit, warm both memory dicts and return the payload; on a
missing client, a missing document, or any client error, return none
with the state unchanged. -/
def AdapterCache.load_from_firestore {α : Type} (c : AdapterCache α)
    (name : String) : Option α × AdapterCache α :=
  match c.db with
  | none => (none, c)
  | some fs =>
      if fs.failGet then (none, c)
      else
        match fs.docs name with
        | some (snapshot, ts) =>
            (some snapshot,
             { c with cache := mupdate c.cache name snapshot,
                      timestamps := mupdate c.timestamps name ts })
        | none => (none, c)

/-- backend/fallback/cache.py, `AdapterCache._fallback`: memory first,
then Firestore, then (none, "failed"). -/
def AdapterCache.fallback {α : Type} (c : AdapterCache α) (name : String) :
    Option α × Status × AdapterCache α :=
  match c.cache name with
  | some snap => (some snap, Status.cached, c)
  | none =>
      match c.load_from_firestore name with
      | (some snap, c2) => (some snap, Status.cached, c2)
      | (none, c2) => (none, Status.failed, c2)

/-- backend/fallback/cache.py, `AdapterCache.fetch_with_fallback`.
`adapter.source_name()` is called before the guarded region: if it
raises, the error propagates and no state changes.  Only the `fetch`
call is inside the try. -/
def AdapterCache.fetch_with_fallback {α κ : Type} (c : AdapterCache α)
    (adapter : Adapter α κ) (kwargs : κ) (now : Nat) :
    Except Unit (Option α × Status × AdapterCache α) :=
  match adapter.source_name with
  | Except.error e => Except.error e
  | Except.ok name =>
      match adapter.fetch kwargs with
      | Except.ok result => Except.ok (some result, Status.live, c.store name result now)
      | Except.error _ => Except.ok (c.fallback name)

/-- backend/fallback/cache.py, `AdapterCache.has_cached`: memory hit, or
durable lookup-on-miss (which warms memory). -/
def AdapterCache.has_cached {α : Type} (c : AdapterCache α) (name : String) :
    Bool × AdapterCache α :=
  match c.cache name with
  | some _ => (true, c)
  | none =>
      match c.load_from_firestore name with
      | (loaded, c2) => (loaded.isSome, c2)

/-- backend/fallback/cache.py, `AdapterCache.last_success_time`: memory
hit, or durable lookup-on-miss (which populates the timestamps dict). -/
def AdapterCache.last_success_time {α : Type} (c : AdapterCache α)
    (name : String) : Option Nat × AdapterCache α :=
  match c.timestamps name with
  | some t => (some t, c)
  | none =>
      let c2 := (c.load_from_firestore name).2
      (c2.timestamps name, c2)

/-- backend/fallback/cache.py, `AdapterCache._delete_from_firestore`:
best-effort single-document delete, any client error swallowed. -/
def AdapterCache.delete_from_firestore {α : Type} (c : AdapterCache α)
    (name : String) : AdapterCache α :=
  { c with
    db :=
      match c.db with
      | none => none
      | some fs =>
          if fs.failDelete then some fs
          else some { fs with docs := mremove fs.docs name } }

/-- backend/fallback/cache.py, `AdapterCache._delete_all_from_firestore`:
best-effort delete of every document, any client error swallowed. -/
def AdapterCache.delete_all_from_firestore {α : Type} (c : AdapterCache α) :
    AdapterCache α :=
  { c with
    db :=
      match c.db with
      | none => none
      | some fs =>
          if fs.failDelete then some fs
          else some { fs with docs := fun _ => none } }

/-- backend/fallback/cache.py, `AdapterCache.clear`.  The per-key branch
is guarded by Python truthiness (`if adapter_name:`), so None and the
empty string both take the clear-all branch. -/
def AdapterCache.clear {α : Type} (c : AdapterCache α)
    (adapter_name : Option String) : AdapterCache α :=
  if pyTruthy adapter_name then
    AdapterCache.delete_from_firestore
      { c with cache := mremove c.cache (adapter_name.getD ""),
               timestamps := mremove c.timestamps (adapter_name.getD "") }
      (adapter_name.getD "")
  else
    AdapterCache.delete_all_from_firestore
      { c with cache := fun _ => none, timestamps := fun _ => none }

/-! Concrete fixtures used by the counterexample evaluation and the
witnesses. -/

/-- A partial result whose `traffic` slot is a list containing a
malformed element (Python `[None]`): `build_traffic_metrics` raises
AttributeError on it. -/
def badTrafficPartial (location : String) : MobilitySnapshot Nat :=
  { timestamp := 0, location := location, bikes := none, buses := none,
    traffic := some (TrafficVal.pylist [TrafficItem.nonIncident]),
    airquality := none, population := none, tours := none, alerts := none,
    recommendations := none, source_status := [] }

/-- An adapter that fetches successfully but returns the malformed
traffic list above. -/
def badTrafficAdapter : SvcAdapter Nat Unit :=
  { source_name := Except.ok "traffic", class_name := "TrafficAdapter",
    fetch := fun args => Except.ok (some (badTrafficPartial args.1)) }

/-- The service registered with the single adapter above (a valid
construction: one registration). -/
def badService : SnapshotService Nat Unit :=
  { adapters := [badTrafficAdapter], adapter_specs := [] }

/-- A memory-only cache (db=None), freshly constructed. -/
def memOnlyCache : AdapterCache Nat := AdapterCache.init none

/-- An adapter whose fetch succeeds with payload 42. -/
def bikesOkAdapter : Adapter Nat Unit :=
  { source_name := Except.ok "bikes", class_name := "BikesAdapter",
    fetch := fun _ => Except.ok 42 }

/-- An adapter (same source name) whose fetch raises. -/
def bikesFailAdapter : Adapter Nat Unit :=
  { source_name := Except.ok "bikes", class_name := "BikesAdapter",
    fetch := fun _ => Except.error () }

/-- An adapter whose `source_name()` itself raises. -/
def nameRaisesAdapter : Adapter Nat Unit :=
  { source_name := Except.error (), class_name := "BadNameAdapter",
    fetch := fun _ => Except.ok 7 }

/-- A healthy durable store pre-populated with one document for
"bikes". -/
def seededFirestore : Firestore Nat :=
  { docs := fun k => if k = "bikes" then some (42, 3) else none,
    failSet := false, failGet := false, failDelete := false }

/-- A durable store whose writes always raise. -/
def failingWriteFirestore : Firestore Nat :=
  { docs := fun _ => none, failSet := true, failGet := false, failDelete := false }

/-- A healthy durable store holding entries for sources "A" and "B". -/
def twoEntryFirestore : Firestore Nat :=
  { docs := fun k => if k = "A" then some (1, 10) else if k = "B" then some (2, 20) else none,
    failSet := false, failGet := false, failDelete := false }

/-- A cache whose memory and durable layers both hold entries for
sources "A" and "B". -/
def twoEntryCache : AdapterCache Nat :=
  { cache := fun k => if k = "A" then some 1 else if k = "B" then some 2 else none,
    timestamps := fun k => if k = "A" then some 10 else if k = "B" then some 20 else none,
    db := some twoEntryFirestore }

/-- A snapshot under construction whose bikes slot was set by an earlier
source. -/
def wTarget : MobilitySnapshot Nat :=
  { timestamp := 0, location := "dublin", bikes := some 7, buses := none,
    traffic := none, airquality := none, population := none, tours := none,
    alerts := none, recommendations := none, source_status := [] }

/-- A later partial result with bikes empty and buses set. -/
def wPartial : MobilitySnapshot Nat :=
  { timestamp := 1, location := "dublin", bikes := none, buses := some 3,
    traffic := none, airquality := none, population := none, tours := none,
    alerts := none, recommendations := none, source_status := [] }

/-- C1: the claim says build_snapshot never raises and hook failures are
swallowed.  The code contradicts this: the traffic-analytics hook is not
guarded, so on a validly constructed service whose adapter returns a
traffic list with a malformed element, `build_snapshot` propagates the
AttributeError raised by `build_traffic_metrics`. -/
theorem build_snapshot_raises_on_malformed_traffic_list :
    SnapshotService.init (some [badTrafficAdapter]) none = Except.ok badService ∧
    badService.build_snapshot "dublin" 0 = Except.error () :=
  ⟨rfl, rfl⟩

/-- Absorption of the overwrite-if-nonempty step when repeated. -/
theorem overwrite_twice {γ : Type} (a b : Option γ) :
    (if a.isSome then a else if a.isSome then a else b) =
    (if a.isSome then a else b) := by
  cases a <;> simp

/-- C3: merging the same PartialResult twice yields exactly the snapshot
obtained by merging it once. -/
theorem merge_idempotent {β : Type} (t p : MobilitySnapshot β) :
    SnapshotService.merge (SnapshotService.merge t (some p)) (some p) =
    SnapshotService.merge t (some p) := by
  cases t
  simp only [SnapshotService.merge]
  simp [overwrite_twice]

/-- C2: last non-empty wins, empty never erases — for each domain field,
a later partial's None leaves the field as it was, while a later
partial's non-None value overwrites it. -/
theorem merge_last_nonempty_wins {β : Type} (t p : MobilitySnapshot β) :
    (p.bikes = none → (SnapshotService.merge t (some p)).bikes = t.bikes) ∧
    (p.bikes ≠ none → (SnapshotService.merge t (some p)).bikes = p.bikes) ∧
    (p.buses = none → (SnapshotService.merge t (some p)).buses = t.buses) ∧
    (p.buses ≠ none → (SnapshotService.merge t (some p)).buses = p.buses) ∧
    (p.traffic = none → (SnapshotService.merge t (some p)).traffic = t.traffic) ∧
    (p.traffic ≠ none → (SnapshotService.merge t (some p)).traffic = p.traffic) ∧
    (p.airquality = none → (SnapshotService.merge t (some p)).airquality = t.airquality) ∧
    (p.airquality ≠ none → (SnapshotService.merge t (some p)).airquality = p.airquality) ∧
    (p.population = none → (SnapshotService.merge t (some p)).population = t.population) ∧
    (p.population ≠ none → (SnapshotService.merge t (some p)).population = p.population) ∧
    (p.tours = none → (SnapshotService.merge t (some p)).tours = t.tours) ∧
    (p.tours ≠ none → (SnapshotService.merge t (some p)).tours = p.tours) ∧
    (p.alerts = none → (SnapshotService.merge t (some p)).alerts = t.alerts) ∧
    (p.alerts ≠ none → (SnapshotService.merge t (some p)).alerts = p.alerts) ∧
    (p.recommendations = none →
      (SnapshotService.merge t (some p)).recommendations = t.recommendations) ∧
    (p.recommendations ≠ none →
      (SnapshotService.merge t (some p)).recommendations = p.recommendations) := by
  refine ⟨?_, ?_, ?_, ?_, ?_, ?_, ?_, ?_, ?_, ?_, ?_, ?_, ?_, ?_, ?_, ?_⟩ <;>
    intro h <;>
    simp [SnapshotService.merge, h, Option.isSome_iff_ne_none]

/-- C2 witness: on the concrete snapshots, the later empty bikes slot
does not erase the earlier value. -/
theorem merge_last_nonempty_wins_witness :
    (SnapshotService.merge wTarget (some wPartial)).bikes = wTarget.bikes :=
  (merge_last_nonempty_wins wTarget wPartial).1 rfl

/-- C9: `clear("")` takes the clear-all branch (Python truthiness), so
it is exactly `clear()` with no name. -/
theorem clear_empty_string_clears_all {α : Type} (c : AdapterCache α) :
    c.clear (some "") = c.clear none := rfl

/-- C10: when `adapter.source_name()` raises, `fetch_with_fallback`
propagates the error instead of returning a (payload, status) pair. -/
theorem fetch_with_fallback_propagates_source_name_error {α κ : Type}
    (c : AdapterCache α) (ad : Adapter α κ) (kw : κ) (now : Nat) (e : Unit)
    (h : ad.source_name = Except.error e) :
    c.fetch_with_fallback ad kw now = Except.error e := by
  simp [AdapterCache.fetch_with_fallback, h]

/-- C10 witness: concrete instance of the propagation. -/
theorem fetch_with_fallback_propagates_source_name_error_witness :
    memOnlyCache.fetch_with_fallback nameRaisesAdapter () 0 = Except.error () :=
  fetch_with_fallback_propagates_source_name_error memOnlyCache nameRaisesAdapter () 0 () rfl

/-- C8: construction fails loudly exactly when there are zero
registrations (in any of the four ways of supplying none) or when both
registration styles are supplied non-empty; in every other case a fully
constructed instance holding exactly the given registrations results. -/
theorem init_configuration_errors {β ν : Type} :
    ((SnapshotService.init none none : Except String (SnapshotService β ν)) =
      Except.error "SnapshotService requires at least one adapter.") ∧
    (SnapshotService.init (some ([] : List (SvcAdapter β ν))) none =
      Except.error "SnapshotService requires at least one adapter.") ∧
    (SnapshotService.init none (some ([] : List (AdapterCallSpec β ν))) =
      Except.error "SnapshotService requires at least one adapter.") ∧
    (SnapshotService.init (some ([] : List (SvcAdapter β ν))) (some []) =
      Except.error "SnapshotService requires at least one adapter.") ∧
    (∀ (a : SvcAdapter β ν) (as : List (SvcAdapter β ν))
       (s : AdapterCallSpec β ν) (ss : List (AdapterCallSpec β ν)),
      SnapshotService.init (some (a :: as)) (some (s :: ss)) =
        Except.error "Provide either adapters OR adapter_specs, not both.") ∧
    (∀ (a : SvcAdapter β ν) (as : List (SvcAdapter β ν)),
      SnapshotService.init (some (a :: as)) none =
        Except.ok { adapters := a :: as, adapter_specs := [] }) ∧
    (∀ (s : AdapterCallSpec β ν) (ss : List (AdapterCallSpec β ν)),
      SnapshotService.init none (some (s :: ss)) =
        Except.ok { adapters := [], adapter_specs := s :: ss }) :=
  ⟨rfl, rfl, rfl, rfl, fun _ _ _ _ => rfl, fun _ _ => rfl, fun _ _ => rfl⟩

/-- C4: after a successful fetch the payload is stored (overwriting any
prior entry), `has_cached` is true, and a subsequent call whose fetch
fails returns the stored payload with status "cached", never "live". -/
theorem cache_round_trip_last_write_wins {α κ : Type} (c : AdapterCache α)
    (ad ad2 : Adapter α κ) (kw kw2 : κ) (name : String) (p : α) (now now2 : Nat)
    (h1 : ad.source_name = Except.ok name) (h2 : ad.fetch kw = Except.ok p)
    (h3 : ad2.source_name = Except.ok name) (h4 : ad2.fetch kw2 = Except.error ()) :
    c.fetch_with_fallback ad kw now =
      Except.ok (some p, Status.live, c.store name p now) ∧
    ((c.store name p now).has_cached name).1 = true ∧
    (c.store name p now).cache name = some p ∧
    (c.store name p now).timestamps name = some now ∧
    (c.store name p now).fetch_with_fallback ad2 kw2 now2 =
      Except.ok (some p, Status.cached, c.store name p now) := by
  refine ⟨?_, ?_, ?_, ?_, ?_⟩
  · simp [AdapterCache.fetch_with_fallback, h1, h2]
  · simp [AdapterCache.has_cached, AdapterCache.store, mupdate]
  · simp [AdapterCache.store, mupdate]
  · simp [AdapterCache.store, mupdate]
  · simp [AdapterCache.fetch_with_fallback, h3, h4, AdapterCache.fallback,
          AdapterCache.store, mupdate]

/-- C4 witness: round trip on a concrete memory-only cache. -/
theorem cache_round_trip_last_write_wins_witness :
    ((memOnlyCache.store "bikes" 42 5).has_cached "bikes").1 = true :=
  (cache_round_trip_last_write_wins memOnlyCache bikesOkAdapter bikesFailAdapter
    () () "bikes" 42 5 6 rfl rfl rfl rfl).2.1

/-- C5: a freshly constructed cache over a pre-populated durable store
reports `has_cached` true without a live fetch, a failing fetch yields
the durable payload with status "cached" (not "failed"), and
`last_success_time` answers via the same lookup-on-miss, warming the
memory layer. -/
theorem cold_start_recovery {α κ : Type} (fs : Firestore α) (name : String)
    (p : α) (t : Nat) (ad : Adapter α κ) (kw : κ) (now : Nat)
    (hdoc : fs.docs name = some (p, t)) (hget : fs.failGet = false)
    (hname : ad.source_name = Except.ok name)
    (hfetch : ad.fetch kw = Except.error ()) :
    ((AdapterCache.init (some fs)).has_cached name).1 = true ∧
    (AdapterCache.init (some fs)).fetch_with_fallback ad kw now =
      Except.ok (some p, Status.cached,
        ((AdapterCache.init (some fs)).load_from_firestore name).2) ∧
    ((AdapterCache.init (some fs)).last_success_time name).1 = some t ∧
    (((AdapterCache.init (some fs)).has_cached name).2).cache name = some p := by
  refine ⟨?_, ?_, ?_, ?_⟩
  · simp [AdapterCache.init, AdapterCache.has_cached, AdapterCache.load_from_firestore,
          hdoc, hget]
  · simp [AdapterCache.init, AdapterCache.fetch_with_fallback, hname, hfetch,
          AdapterCache.fallback, AdapterCache.load_from_firestore, hdoc, hget]
  · simp [AdapterCache.init, AdapterCache.last_success_time,
          AdapterCache.load_from_firestore, hdoc, hget, mupdate]
  · simp [AdapterCache.init, AdapterCache.has_cached, AdapterCache.load_from_firestore,
          hdoc, hget, mupdate]

/-- C5 witness: cold start on the concrete seeded store. -/
theorem cold_start_recovery_witness :
    ((AdapterCache.init (some seededFirestore)).has_cached "bikes").1 = true ∧
    ((AdapterCache.init (some seededFirestore)).last_success_time "bikes").1 = some 3 :=
  ⟨(cold_start_recovery seededFirestore "bikes" 42 3 bikesFailAdapter () 9
      rfl rfl rfl rfl).1,
   (cold_start_recovery seededFirestore "bikes" 42 3 bikesFailAdapter () 9
      rfl rfl rfl rfl).2.2.1⟩

/-- C6: when the durable write raises, the error is swallowed — the call
still returns (payload, "live"), both in-memory entries are updated, and
the durable layer is left as it was. -/
theorem durable_write_failure_transparent {α κ : Type} (c : AdapterCache α)
    (fs : Firestore α) (ad : Adapter α κ) (kw : κ) (name : String) (p : α)
    (now : Nat)
    (hdb : c.db = some fs) (hfail : fs.failSet = true)
    (hname : ad.source_name = Except.ok name) (hfetch : ad.fetch kw = Except.ok p) :
    c.fetch_with_fallback ad kw now =
      Except.ok (some p, Status.live, c.store name p now) ∧
    (c.store name p now).cache name = some p ∧
    (c.store name p now).timestamps name = some now ∧
    (c.store name p now).db = c.db := by
  refine ⟨?_, ?_, ?_, ?_⟩
  · simp [AdapterCache.fetch_with_fallback, hname, hfetch]
  · simp [AdapterCache.store, mupdate]
  · simp [AdapterCache.store, mupdate]
  · simp [AdapterCache.store, hdb, hfail]

/-- C6 witness: concrete cache over a store whose writes fail. -/
theorem durable_write_failure_transparent_witness :
    ((AdapterCache.init (some failingWriteFirestore)).store "bikes" 42 5).db =
      (AdapterCache.init (some failingWriteFirestore)).db :=
  (durable_write_failure_transparent (AdapterCache.init (some failingWriteFirestore))
    failingWriteFirestore bikesOkAdapter () "bikes" 42 5 rfl rfl rfl rfl).2.2.2

/-- C7: `clear(B)` removes B's entry from both layers and touches
nothing else — `has_cached(A)` stays true, `has_cached(B)` becomes
false, every other key of either layer is unchanged; `clear()` with no
name empties both layers. -/
theorem clear_per_key_frame {α : Type} (c : AdapterCache α) (fs : Firestore α)
    (A B : String) (pA pB : α)
    (hdb : c.db = some fs) (hdel : fs.failDelete = false)
    (hA : c.cache A = some pA) (hB : c.cache B = some pB)
    (hABne : A ≠ B) (hBne : B ≠ "") :
    ((c.clear (some B)).has_cached A).1 = true ∧
    ((c.clear (some B)).has_cached B).1 = false ∧
    (c.clear (some B)).cache B = none ∧
    (c.clear (some B)).timestamps B = none ∧
    (c.clear (some B)).db = some { fs with docs := mremove fs.docs B } ∧
    (∀ k, k ≠ B →
      (c.clear (some B)).cache k = c.cache k ∧
      (c.clear (some B)).timestamps k = c.timestamps k ∧
      mremove fs.docs B k = fs.docs k) ∧
    (∀ k, (c.clear none).cache k = none ∧ (c.clear none).timestamps k = none) ∧
    (c.clear none).db = some { fs with docs := fun _ => none } := by
  refine ⟨?_, ?_, ?_, ?_, ?_, ?_, ?_, ?_⟩
  · simp [AdapterCache.clear, pyTruthy, hBne, AdapterCache.delete_from_firestore,
          AdapterCache.has_cached, mremove, hABne, hA]
  · cases hfg : fs.failGet <;>
      simp [AdapterCache.clear, pyTruthy, hBne, AdapterCache.delete_from_firestore,
            AdapterCache.has_cached, AdapterCache.load_from_firestore, mremove,
            hdb, hdel, hfg]
  · simp [AdapterCache.clear, pyTruthy, hBne, AdapterCache.delete_from_firestore,
          mremove]
  · simp [AdapterCache.clear, pyTruthy, hBne, AdapterCache.delete_from_firestore,
          mremove]
  · simp [AdapterCache.clear, pyTruthy, hBne, AdapterCache.delete_from_firestore,
          hdb, hdel]
  · intro k hk
    refine ⟨?_, ?_, ?_⟩ <;>
      simp [AdapterCache.clear, pyTruthy, hBne, AdapterCache.delete_from_firestore,
            mremove, hk]
  · intro k
    constructor <;> simp [AdapterCache.clear, pyTruthy,
      AdapterCache.delete_all_from_firestore]
  · simp [AdapterCache.clear, pyTruthy, AdapterCache.delete_all_from_firestore,
          hdb, hdel]

/-- C7 witness: clearing "B" on the concrete two-entry cache. -/
theorem clear_per_key_frame_witness :
    ((twoEntryCache.clear (some "B")).has_cached "A").1 = true ∧
    ((twoEntryCache.clear (some "B")).has_cached "B").1 = false :=
  ⟨(clear_per_key_frame twoEntryCache twoEntryFirestore "A" "B" 1 2
      rfl rfl rfl rfl (by decide) (by decide)).1,
   (clear_per_key_frame twoEntryCache twoEntryFirestore "A" "B" 1 2
      rfl rfl rfl rfl (by decide) (by decide)).2.1⟩
